import Mathlib

/-!
Verification development for the Gramedia Display Competition data-collection
app (`src/app.py`).  The Python source is shallowly embedded: pure string and
arithmetic manipulations are translated directly, and interactions with the
external services (Google Cloud Storage, Google Sheets, the Streamlit widget
layer, wall-clock time and `uuid4`) are passed in as explicit oracle
parameters, so each embedded function is a pure Lean function of the same
decision structure as the Python code.
-/

namespace Gramedia

/-! ## Character-level utilities

`app.py` cleans store/employee names with
`"".join(c for c in s if c.isalnum() or c in (' ', '-', '_')).strip().replace(' ', '_')`
(lines 479-480).  We embed the three stages (filter, strip, replace) over
`List Char`.
-/

/-- The characters removed by the Python `str.strip()` (ASCII whitespace:
space, tab, newline, carriage return, vertical tab, form feed). -/
def pyIsSpace (c : Char) : Bool :=
  c == ' ' || c == '\t' || c == '\n' || c == '\r' || c == Char.ofNat 11 || c == Char.ofNat 12

/-- The character predicate of the generator expression on line 479:
`c.isalnum() or c in (' ', '-', '_')`. -/
def keepChar (c : Char) : Bool :=
  c.isAlphanum || c == ' ' || c == '-' || c == '_'

/-- The effect of `.replace(' ', '_')` on a single character. -/
def replSpace (c : Char) : Char :=
  if c = ' ' then '_' else c

/-- the Python `str.strip()` on the character list: drop leading and trailing
whitespace. -/
def pyStripList (l : List Char) : List Char :=
  ((l.dropWhile pyIsSpace).reverse.dropWhile pyIsSpace).reverse

/-- the Python `str.strip()`. -/
def pyStripS (s : String) : String :=
  ⟨pyStripList s.data⟩

/-- The name cleaning of `upload_image` (lines 479-480): keep alphanumerics,
spaces, hyphens, underscores; strip; replace spaces with underscores. -/
def sanitizeList (l : List Char) : List Char :=
  (pyStripList (l.filter keepChar)).map replSpace

/-- String form of the name cleaning on lines 479-480 of `app.py`. -/
def sanitizeName (s : String) : String :=
  ⟨sanitizeList s.data⟩

/-! ### Strip lemmas -/

/-! ### Sanitization lemmas -/

/-! ## Image normalizer

`upload_image` (lines 489-509) auto-orients the image from EXIF data, converts
`RGBA`/`P` modes to `RGB`, downsizes so that no dimension exceeds 1920, and
re-encodes as JPEG.  We embed images as a PIL color mode plus pixel
dimensions; the EXIF transpose concerns metadata outside this data model, so
the embedded normalizer receives the already-oriented image.
-/

/-- PIL color modes that a JPEG/PNG upload can decode to. -/
inductive ImgMode where
  | RGB
  | RGBA
  | P
  | L
  | LA
  | CMYK
deriving DecidableEq

/-- An in-memory image: PIL color mode and pixel dimensions. -/
structure Img where
  mode : ImgMode
  width : Nat
  height : Nat
deriving DecidableEq

/-- Lines 493-494: `if image.mode in ("RGBA", "P"): image = image.convert("RGB")`. -/
def convertForJpeg (img : Img) : Img :=
  if img.mode = ImgMode.RGBA ∨ img.mode = ImgMode.P then { img with mode := ImgMode.RGB }
  else img

/-- Lines 497-505: if either dimension exceeds 1920, scale so the larger
dimension becomes 1920, computing the other by `int((1920 * x) / y)`
(floor for the nonnegative values involved). -/
def resizeDims (w h : Nat) : Nat × Nat :=
  if w > 1920 ∨ h > 1920 then
    if w > h then (1920, (1920 * h) / w)
    else ((1920 * w) / h, 1920)
  else (w, h)

/-- The `image.resize(...)` step applied to our image model. -/
def resizeImg (img : Img) : Img :=
  { img with width := (resizeDims img.width img.height).1,
             height := (resizeDims img.width img.height).2 }

/-- The full pixel-level normalization of `upload_image` (lines 493-505),
after EXIF orientation correction: mode conversion then bounded resize. -/
def normalizeImg (img : Img) : Img :=
  resizeImg (convertForJpeg img)

/-- Follows the wording of the spec ("color mode carries an alpha channel or
palette"): among the decodable PIL modes, `RGBA` and `LA` carry an alpha
channel and `P` is the palette mode. -/
def carriesAlphaOrPalette : ImgMode → Bool
  | ImgMode.RGBA => true
  | ImgMode.LA => true
  | ImgMode.P => true
  | _ => false

/-! ## Object store uploader

`upload_image` (lines 471-528) builds the object path from the sanitized
names, the wall-clock date/time (`strftime("%Y-%m-%d")`, `strftime("%H%M%S")`)
and the first 8 characters of a `uuid4` string, stores the normalized JPEG,
tries to make the object public, and returns the deterministic public URL.
The wall clock and the uuid string are inputs; success of the storage write
and of `make_public` are Boolean oracles (the code catches their exceptions).
-/

/-- Wall-clock components delivered by `datetime.now()`. -/
structure DateTime where
  year : Nat
  month : Nat
  day : Nat
  hour : Nat
  minute : Nat
  second : Nat
deriving DecidableEq

/-- The ASCII digit character for `n % 10`. -/
def digitChar (n : Nat) : Char := Char.ofNat (48 + n % 10)

/-- Two-digit zero-padded rendering, as produced by `strftime` fields
`%m`, `%d`, `%H`, `%M`, `%S` for their in-range values. -/
def pad2 (n : Nat) : String := ⟨[digitChar (n / 10), digitChar n]⟩

/-- Four-digit zero-padded rendering, as produced by `strftime("%Y")` for
years up to 9999. -/
def pad4 (n : Nat) : String :=
  ⟨[digitChar (n / 1000), digitChar (n / 100), digitChar (n / 10), digitChar n]⟩

/-- Line 483: `datetime.now().strftime("%Y-%m-%d")`. -/
def fmtDate (t : DateTime) : String :=
  pad4 t.year ++ "-" ++ pad2 t.month ++ "-" ++ pad2 t.day

/-- Line 484: `datetime.now().strftime("%H%M%S")`. -/
def fmtTime (t : DateTime) : String :=
  pad2 t.hour ++ pad2 t.minute ++ pad2 t.second

/-- Line 485: `str(uuid.uuid4())[:8]`. -/
def uuidShort (uuidStr : String) : String := ⟨uuidStr.data.take 8⟩

/-- Hexadecimal digit test (the canonical `uuid4` text form is lowercase
hexadecimal and hyphens, so its first 8 characters satisfy this). -/
def isHexChar (c : Char) : Bool :=
  c.isDigit || (('a' ≤ c) && (c ≤ 'f'))

/-- Line 487: the object path
`gramedia-display/{clean_store}/{clean_employee}/{date_str}/{img_type}/{timestamp}_{unique_id}.jpg`. -/
def objectPath (store employee img_type : String) (t : DateTime) (uuidStr : String) : String :=
  "gramedia-display/" ++ sanitizeName store ++ "/" ++ sanitizeName employee ++ "/" ++
    fmtDate t ++ "/" ++ img_type ++ "/" ++ fmtTime t ++ "_" ++ uuidShort uuidStr ++ ".jpg"

/-- Line 523: `https://storage.googleapis.com/{self.bucket.name}/{path}`. -/
def publicUrl (bucketName path : String) : String :=
  "https://storage.googleapis.com/" ++ bucketName ++ "/" ++ path

/-- Observable outcome of one `upload_image` call: the returned value
(`None` on failure), the path written to the bucket together with the pixel
data stored there, and whether the "could not make public" warning fired. -/
structure UploadResult where
  url : Option String
  storedPath : Option String
  storedImg : Option Img
  warnedNotPublic : Bool
deriving DecidableEq

/-- `GramediaDisplayHandler.upload_image` (lines 471-528) with the bucket
connected.  `putOk` is true when decoding, re-encoding and
`blob.upload_from_file` succeed (their exceptions make the function return
`None`); `makePublicOk` is true when `blob.make_public()` succeeds (its
exception only triggers a warning, line 520, and the URL is still
returned). -/
def upload_image (bucketName : String) (img : Img) (store employee img_type : String)
    (t : DateTime) (uuidStr : String) (putOk makePublicOk : Bool) : UploadResult :=
  let path := objectPath store employee img_type t uuidStr
  if putOk then
    { url := some (publicUrl bucketName path)
      storedPath := some path
      storedImg := some (normalizeImg img)
      warnedNotPublic := !makePublicOk }
  else
    { url := none, storedPath := none, storedImg := none, warnedNotPublic := false }

/-! ## Entity catalog

`add_store_to_sheet` (lines 431-449) and `add_employee_to_sheet`
(lines 451-469) scan the catalog sheet for a record whose trimmed name
equals the trimmed new name; on a hit they return `True` without appending,
otherwise they append the trimmed name and return `True`.  The catalog is
embedded as the list of name-column values; the `try/except` wrapper and the
missing-worksheet guard (which only turn external failures into `False`)
are outside the embedded pure path.
-/

/-- The shared dedup-then-append logic of `add_store_to_sheet` and
`add_employee_to_sheet`: result catalog and returned Boolean. -/
def addName (catalog : List String) (name : String) : List String × Bool :=
  if catalog.any (fun r => pyStripS r == pyStripS name) then (catalog, true)
  else (catalog ++ [pyStripS name], true)

/-- Lines 431-449 of `app.py`. -/
def add_store_to_sheet : List String → String → List String × Bool := addName

/-- Lines 451-469 of `app.py`. -/
def add_employee_to_sheet : List String → String → List String × Bool := addName

/-! ## Submission flow

`main` (lines 694-821): on submit, the validation block (lines 696-711)
collects every failing check into `errors`; if any error exists only the
message list is rendered (lines 713-719).  Otherwise new catalog entries are
added (a failure stops the flow, lines 725-736), the education and poster
photos are uploaded, the display photo is uploaded when participating
(lines 738-755), and only if both required URLs are truthy is the row
appended (lines 757-773).  Upload results, catalog-add success and
row-append success are oracles; the strings produced by `strftime` are
inputs.
-/

/-- The widget values read inside the submit handler. -/
structure FormState where
  store_name : String
  employee_name : String
  new_store : Bool
  new_employee : Bool
  education_photo : Bool
  poster_photo : Bool
  participation : String
  display_competition_photo : Bool
  non_participation_reason : String
deriving DecidableEq

/-- The validation block, lines 696-711: all checks run and every failing
one appends its message. -/
def validate (f : FormState) : List String :=
  (if pyStripS f.store_name = "" then ["Store name is required"] else []) ++
  (if pyStripS f.employee_name = "" then ["Employee name is required"] else []) ++
  (if f.education_photo = false then ["Education photo is required"] else []) ++
  (if f.poster_photo = false then ["Poster photo is required"] else []) ++
  (if f.participation = "Select..." then ["Please select participation status"] else []) ++
  (if f.participation = "Yes" ∧ f.display_competition_photo = false then
    ["Display competition photo is required when participating"] else []) ++
  (if f.participation = "No" ∧ pyStripS f.non_participation_reason = "" then
    ["Reason is required when not participating"] else [])

/-- The record appended by `save_data` (lines 530-556), one field per
spreadsheet column. -/
structure Row where
  store_name : String
  employee_name : String
  date : String
  education_photo_url : String
  poster_photo_url : String
  participation_competition : String
  display_competition_photo_url : String
  non_participation_reason : String
  timestamp : String
  status : String
deriving DecidableEq

/-- The row layout of `save_data` (lines 538-549), in header order. -/
def save_data_row (d : Row) : List String :=
  [d.store_name, d.employee_name, d.date, d.education_photo_url, d.poster_photo_url,
   d.participation_competition, d.display_competition_photo_url,
   d.non_participation_reason, d.timestamp, d.status]

/-- External-effect oracles and clock strings for one submit: catalog-add
success, each `upload_image` call and its returned value keyed by its `img_type`
argument, row-append success, and the two `strftime` outputs. -/
structure Env where
  add_store_ok : Bool
  add_employee_ok : Bool
  upload : String → Option String
  append_ok : Bool
  entry_date : String
  now_ts : String

/-- Python truthiness of an optional string (`if education_url and
poster_url:`): `None` and `""` are falsy. -/
def pyTruthy : Option String → Bool
  | none => false
  | some s => !(s == "")

/-- Rendering of a Python value into a spreadsheet cell: `None` (an upload
that failed) becomes an empty cell. -/
def optCell : Option String → String
  | none => ""
  | some s => s

/-- Observable outcome of one submit: the `img_type` tags of the objects
now present in the bucket, the appended row if any, and the rendered
validation errors. -/
structure Outcome where
  uploaded : List String
  row : Option Row
  errors : List String
deriving DecidableEq

/-- The submit handler, lines 694-821 of `app.py`.  Matches the source
order: validation; catalog adds with `st.stop()` on failure; education,
poster and (when participating) display uploads all attempted; the row is
appended only when both required URLs are truthy and the sheet append
succeeds. -/
def processSubmission (f : FormState) (env : Env) : Outcome :=
  let errors := validate f
  if errors = [] then
    if f.new_store = true ∧ env.add_store_ok = false then
      { uploaded := [], row := none, errors := [] }
    else if f.new_employee = true ∧ env.add_employee_ok = false then
      { uploaded := [], row := none, errors := [] }
    else
      let education_url := env.upload "education"
      let poster_url := env.upload "poster"
      let display_url : Option String :=
        if f.participation = "Yes" ∧ f.display_competition_photo = true then
          env.upload "display_competition"
        else some ""
      let uploaded :=
        (if education_url.isSome = true then ["education"] else []) ++
        (if poster_url.isSome = true then ["poster"] else []) ++
        (if (f.participation = "Yes" ∧ f.display_competition_photo = true) ∧
            (env.upload "display_competition").isSome = true then
          ["display_competition"] else [])
      if pyTruthy education_url = true ∧ pyTruthy poster_url = true then
        if env.append_ok = true then
          { uploaded := uploaded
            row := some
              { store_name := pyStripS f.store_name
                employee_name := pyStripS f.employee_name
                date := env.entry_date
                education_photo_url := optCell education_url
                poster_photo_url := optCell poster_url
                participation_competition := f.participation
                display_competition_photo_url :=
                  if f.participation = "Yes" then optCell display_url else ""
                non_participation_reason :=
                  if f.participation = "No" then f.non_participation_reason else ""
                timestamp := env.now_ts
                status := "Submitted" }
            errors := [] }
        else { uploaded := uploaded, row := none, errors := [] }
      else { uploaded := uploaded, row := none, errors := [] }
  else { uploaded := [], row := none, errors := errors }

/-! ## Theorems -/

theorem dropWhile_dropWhile (p : α → Bool) (l : List α) :
    (l.dropWhile p).dropWhile p = l.dropWhile p := by
  induction l with
  | nil => rfl
  | cons a as ih =>
    rw [List.dropWhile_cons]
    by_cases h : p a = true
    · rw [if_pos h]; exact ih
    · rw [if_neg h, List.dropWhile_cons, if_neg h]

theorem head?_dropWhile_false (p : α → Bool) (l : List α) :
    ∀ c, (l.dropWhile p).head? = some c → p c = false := by
  induction l with
  | nil => intro c h; simp at h
  | cons a as ih =>
    intro c h
    rw [List.dropWhile_cons] at h
    by_cases hpa : p a = true
    · rw [if_pos hpa] at h; exact ih c h
    · rw [if_neg hpa] at h
      simp at h
      rw [← h]
      exact Bool.eq_false_iff.mpr hpa

theorem dropWhile_eq_self_of_head? (p : α → Bool) (l : List α)
    (h : ∀ c, l.head? = some c → p c = false) : l.dropWhile p = l := by
  cases l with
  | nil => rfl
  | cons a as =>
    rw [List.dropWhile_cons, if_neg]
    simp [h a rfl]

theorem getLast?_of_dropWhile_getLast? (p : α → Bool) :
    ∀ (w : List α) (c : α), (w.dropWhile p).getLast? = some c → w.getLast? = some c := by
  intro w
  induction w with
  | nil => intro c h; simp at h
  | cons a as ih =>
    intro c h
    rw [List.dropWhile_cons] at h
    by_cases hpa : p a = true
    · rw [if_pos hpa] at h
      have h2 := ih c h
      have has : as ≠ [] := by
        intro e; rw [e] at h2; simp at h2
      obtain ⟨b, bs, rfl⟩ := List.exists_cons_of_ne_nil has
      rw [List.getLast?_cons_cons]
      exact h2
    · rw [if_neg hpa] at h
      exact h

theorem pyStripList_idem (l : List Char) :
    pyStripList (pyStripList l) = pyStripList l := by
  unfold pyStripList
  have h1 : (((l.dropWhile pyIsSpace).reverse.dropWhile pyIsSpace).reverse).dropWhile pyIsSpace
      = ((l.dropWhile pyIsSpace).reverse.dropWhile pyIsSpace).reverse := by
    apply dropWhile_eq_self_of_head?
    intro c hc
    rw [List.head?_reverse] at hc
    have h2 := getLast?_of_dropWhile_getLast? pyIsSpace _ _ hc
    rw [List.getLast?_reverse] at h2
    exact head?_dropWhile_false pyIsSpace l c h2
  rw [h1, List.reverse_reverse, dropWhile_dropWhile]

theorem mem_of_mem_dropWhile (p : α → Bool) (l : List α) :
    ∀ c, c ∈ l.dropWhile p → c ∈ l := by
  induction l with
  | nil => intro c h; simp at h
  | cons a as ih =>
    intro c h
    rw [List.dropWhile_cons] at h
    by_cases hpa : p a = true
    · rw [if_pos hpa] at h
      exact List.mem_cons_of_mem a (ih c h)
    · rw [if_neg hpa] at h
      exact h

theorem mem_of_mem_pyStripList (l : List Char) (c : Char)
    (h : c ∈ pyStripList l) : c ∈ l := by
  unfold pyStripList at h
  rw [List.mem_reverse] at h
  have h2 := mem_of_mem_dropWhile pyIsSpace _ c h
  rw [List.mem_reverse] at h2
  exact mem_of_mem_dropWhile pyIsSpace l c h2

theorem head?_mem_self {l : List α} {c : α} (hc : l.head? = some c) : c ∈ l := by
  cases l with
  | nil => simp at hc
  | cons a as =>
    simp at hc
    rw [← hc]
    exact List.mem_cons_self a as

theorem pyStripList_eq_self_of_no_space (l : List Char)
    (h : ∀ c ∈ l, pyIsSpace c = false) : pyStripList l = l := by
  unfold pyStripList
  have h1 : l.dropWhile pyIsSpace = l :=
    dropWhile_eq_self_of_head? _ _ (fun c hc => h c (head?_mem_self hc))
  rw [h1]
  have h2 : l.reverse.dropWhile pyIsSpace = l.reverse := by
    apply dropWhile_eq_self_of_head?
    intro c hc
    exact h c (List.mem_reverse.mp (head?_mem_self hc))
  rw [h2, List.reverse_reverse]

theorem keepChar_not_space {c : Char} (hk : keepChar c = true) (hne : c ≠ ' ') :
    pyIsSpace c = false := by
  by_contra hcon
  have hsp : pyIsSpace c = true := eq_true_of_ne_false hcon
  unfold pyIsSpace at hsp
  simp only [Bool.or_eq_true, beq_iff_eq] at hsp
  rcases hsp with ((((h | h) | h) | h) | h) | h
  · exact hne h
  all_goals (subst h; exact absurd hk (by decide))

theorem mem_sanitizeList (l : List Char) :
    ∀ c ∈ sanitizeList l, keepChar c = true ∧ c ≠ ' ' := by
  intro c hc
  unfold sanitizeList at hc
  rw [List.mem_map] at hc
  obtain ⟨d, hd, hrepl⟩ := hc
  have hdl : d ∈ l.filter keepChar := mem_of_mem_pyStripList _ d hd
  have hdk : keepChar d = true := List.of_mem_filter hdl
  unfold replSpace at hrepl
  by_cases hsp : d = ' '
  · rw [if_pos hsp] at hrepl
    rw [← hrepl]
    exact ⟨by decide, by decide⟩
  · rw [if_neg hsp] at hrepl
    rw [← hrepl]
    exact ⟨hdk, hsp⟩

theorem sanitizeList_idem (l : List Char) :
    sanitizeList (sanitizeList l) = sanitizeList l := by
  have hmem := mem_sanitizeList l
  have hout : sanitizeList (sanitizeList l)
      = (pyStripList ((sanitizeList l).filter keepChar)).map replSpace := rfl
  rw [hout]
  rw [List.filter_eq_self.mpr (fun c hc => (hmem c hc).1)]
  rw [pyStripList_eq_self_of_no_space _
    (fun c hc => keepChar_not_space (hmem c hc).1 (hmem c hc).2)]
  have : ∀ c ∈ sanitizeList l, replSpace c = c := by
    intro c hc
    unfold replSpace
    rw [if_neg (hmem c hc).2]
  rw [List.map_congr_left this]
  simp

/-- Claim C9: Path sanitization (keep only alphanumerics, spaces, hyphens,
underscores; trim; replace internal spaces with underscores, `app.py`
lines 479-480) is idempotent: sanitizing an already-sanitized name yields
the same name. -/
theorem sanitizeName_idempotent (s : String) :
    sanitizeName (sanitizeName s) = sanitizeName s := by
  unfold sanitizeName
  exact congrArg String.mk (sanitizeList_idem s.data)

theorem pyStripS_idem (s : String) : pyStripS (pyStripS s) = pyStripS s := by
  unfold pyStripS
  exact congrArg String.mk (pyStripList_idem s.data)

theorem convertForJpeg_dims (img : Img) :
    (convertForJpeg img).width = img.width ∧ (convertForJpeg img).height = img.height := by
  unfold convertForJpeg
  by_cases h : img.mode = ImgMode.RGBA ∨ img.mode = ImgMode.P
  · rw [if_pos h]; exact ⟨rfl, rfl⟩
  · rw [if_neg h]; exact ⟨rfl, rfl⟩

theorem resizeImg_mode (img : Img) : (resizeImg img).mode = img.mode := rfl

/-- Claim C3: After orientation correction, the normalizer leaves images with
both dimensions ≤ 1920 at their original resolution; when at least one
dimension exceeds 1920, the larger output dimension equals 1920 and the
aspect ratio is preserved within a rounding error of one pixel (the exact
aspect-preserving value of the scaled dimension lies in `[d, d+1)` for the
output value `d`). -/
theorem resize_bounds (w h : Nat) (hw : 0 < w) (hh : 0 < h) :
    (w ≤ 1920 ∧ h ≤ 1920 → resizeDims w h = (w, h)) ∧
    (1920 < w ∨ 1920 < h →
      max (resizeDims w h).1 (resizeDims w h).2 = 1920 ∧
      (((resizeDims w h).2 * w ≤ (resizeDims w h).1 * h ∧
        (resizeDims w h).1 * h < ((resizeDims w h).2 + 1) * w) ∨
       ((resizeDims w h).1 * h ≤ (resizeDims w h).2 * w ∧
        (resizeDims w h).2 * w < ((resizeDims w h).1 + 1) * h))) := by
  constructor
  · intro ⟨hw1, hh1⟩
    unfold resizeDims
    rw [if_neg (by omega)]
  · intro hbig
    by_cases hwh : w > h
    · have hw19 : 1920 < w := by omega
      have hq : resizeDims w h = (1920, (1920 * h) / w) := by
        unfold resizeDims
        rw [if_pos (Or.inl hw19), if_pos hwh]
      rw [hq]
      simp only
      have hdivle : (1920 * h) / w ≤ 1920 := by
        calc (1920 * h) / w ≤ (1920 * w) / w :=
              Nat.div_le_div_right (by omega)
          _ = 1920 := by
              rw [Nat.mul_comm]
              exact Nat.mul_div_cancel_left 1920 hw
      constructor
      · omega
      · left
        constructor
        · exact Nat.div_mul_le_self (1920 * h) w
        · calc 1920 * h = w * ((1920 * h) / w) + (1920 * h) % w :=
                (Nat.div_add_mod (1920 * h) w).symm
            _ < w * ((1920 * h) / w) + w :=
                Nat.add_lt_add_left (Nat.mod_lt (1920 * h) hw) _
            _ = ((1920 * h) / w + 1) * w := by ring
    · have hh19 : 1920 < h := by omega
      have hq : resizeDims w h = ((1920 * w) / h, 1920) := by
        unfold resizeDims
        rw [if_pos (Or.inr hh19), if_neg hwh]
      rw [hq]
      simp only
      have hdivle : (1920 * w) / h ≤ 1920 := by
        calc (1920 * w) / h ≤ (1920 * h) / h :=
              Nat.div_le_div_right (by omega)
          _ = 1920 := by
              rw [Nat.mul_comm]
              exact Nat.mul_div_cancel_left 1920 hh
      constructor
      · omega
      · right
        constructor
        · exact Nat.div_mul_le_self (1920 * w) h
        · calc 1920 * w = h * ((1920 * w) / h) + (1920 * w) % h :=
                (Nat.div_add_mod (1920 * w) h).symm
            _ < h * ((1920 * w) / h) + h :=
                Nat.add_lt_add_left (Nat.mod_lt (1920 * w) hh) _
            _ = ((1920 * w) / h + 1) * h := by ring

/-- Witness for `resize_bounds`: a 3000×1000 image is scaled to 1920×640,
and a 1200×900 image is left unchanged. -/
theorem resize_bounds_witness :
    0 < 3000 ∧ 0 < 1000 ∧ resizeDims 3000 1000 = (1920, 640) ∧
      max (resizeDims 3000 1000).1 (resizeDims 3000 1000).2 = 1920 ∧
      resizeDims 1200 900 = (1200, 900) := by
  refine ⟨by decide, by decide, by decide, ?_, ?_⟩
  · exact ((resize_bounds 3000 1000 (by decide) (by decide)).2 (by decide)).1
  · exact (resize_bounds 1200 900 (by decide) (by decide)).1 (by decide)

/-- Claim C8, counterexample: The claim "every input image whose color mode
carries an alpha channel or a palette is flattened to opaque RGB" is false:
a 10×10 image in mode `LA` (greyscale with alpha, produced by PIL when
opening a greyscale-alpha PNG) carries an alpha channel but passes through
the normalizer unconverted, because lines 493-494 only test for the literal
modes `"RGBA"` and `"P"`. -/
theorem convert_misses_LA :
    ¬ (∀ img : Img, carriesAlphaOrPalette img.mode = true →
        (normalizeImg img).mode = ImgMode.RGB) := by
  intro hclaim
  have h := hclaim ⟨ImgMode.LA, 10, 10⟩ (by decide)
  exact absurd h (by decide)

/-- Claim C8, amended: Every input image whose color mode is `RGBA` or `P`
(palette) is flattened by the normalizer to `RGB`, which carries neither an
alpha channel nor a palette; other alpha-carrying modes (`LA`) are passed
through unconverted. -/
theorem convert_flattens_rgba_p (img : Img)
    (h : img.mode = ImgMode.RGBA ∨ img.mode = ImgMode.P) :
    (normalizeImg img).mode = ImgMode.RGB ∧
    carriesAlphaOrPalette (normalizeImg img).mode = false := by
  have hc : (convertForJpeg img).mode = ImgMode.RGB := by
    unfold convertForJpeg
    rw [if_pos h]
  unfold normalizeImg
  rw [resizeImg_mode, hc]
  exact ⟨rfl, rfl⟩

/-- Witness for `convert_flattens_rgba_p` at a concrete RGBA image. -/
theorem convert_flattens_rgba_p_witness :
    (normalizeImg ⟨ImgMode.RGBA, 5, 5⟩).mode = ImgMode.RGB ∧
    carriesAlphaOrPalette (normalizeImg ⟨ImgMode.RGBA, 5, 5⟩).mode = false :=
  convert_flattens_rgba_p ⟨ImgMode.RGBA, 5, 5⟩ (Or.inl rfl)

theorem isDigit_digitChar (n : Nat) : (digitChar n).isDigit = true := by
  unfold digitChar
  have h : n % 10 < 10 := Nat.mod_lt n (by decide)
  interval_cases h10 : (n % 10) <;> decide

theorem pad2_length (n : Nat) : (pad2 n).length = 2 := rfl

theorem pad4_length (n : Nat) : (pad4 n).length = 4 := rfl

theorem pad2_digits (n : Nat) : ∀ c ∈ (pad2 n).data, c.isDigit = true := by
  intro c hc
  unfold pad2 at hc
  simp only [List.mem_cons, List.not_mem_nil, or_false] at hc
  rcases hc with h | h <;> (rw [h]; exact isDigit_digitChar _)

theorem pad4_digits (n : Nat) : ∀ c ∈ (pad4 n).data, c.isDigit = true := by
  intro c hc
  unfold pad4 at hc
  simp only [List.mem_cons, List.not_mem_nil, or_false] at hc
  rcases hc with h | h | h | h <;> (rw [h]; exact isDigit_digitChar _)

theorem fmtDate_length (t : DateTime) : (fmtDate t).length = 10 := by
  unfold fmtDate
  simp only [String.length_append, pad4_length, pad2_length]
  decide

theorem fmtDate_chars (t : DateTime) :
    ∀ c ∈ (fmtDate t).data, c.isDigit = true ∨ c = '-' := by
  intro c hc
  unfold fmtDate at hc
  simp only [String.data_append, List.mem_append] at hc
  rcases hc with (((h | h) | h) | h) | h
  · exact Or.inl (pad4_digits _ c h)
  · simp at h; exact Or.inr h
  · exact Or.inl (pad2_digits _ c h)
  · simp at h; exact Or.inr h
  · exact Or.inl (pad2_digits _ c h)

theorem fmtTime_length (t : DateTime) : (fmtTime t).length = 6 := by
  unfold fmtTime
  simp only [String.length_append, pad2_length]

theorem fmtTime_chars (t : DateTime) :
    ∀ c ∈ (fmtTime t).data, c.isDigit = true := by
  intro c hc
  unfold fmtTime at hc
  simp only [String.data_append, List.mem_append] at hc
  rcases hc with (h | h) | h <;> exact pad2_digits _ c h

/-- Claim C4: For every successful `upload_image` call, the stored object path
is `gramedia-display/<sanitizedStore>/<sanitizedEmployee>/<YYYY-MM-DD>/<role>/<HHMMSS>_<suffix>.jpg`
where the suffix is 8 hexadecimal characters taken from the uuid4 string,
the date part is 10 characters of digits and hyphens, the time part is 6
digits, and the returned reference is the deterministic public URL
`https://storage.googleapis.com/<bucket>/<path>` (not a signed URL). -/
theorem upload_path_format (bucketName : String) (img : Img)
    (store employee role : String) (t : DateTime) (uuidStr : String) (mp : Bool)
    (hu8 : 8 ≤ uuidStr.data.length)
    (huhex : ∀ c ∈ uuidStr.data.take 8, isHexChar c = true) :
    ∃ suffix : String,
      (upload_image bucketName img store employee role t uuidStr true mp).storedPath =
        some ("gramedia-display/" ++ sanitizeName store ++ "/" ++ sanitizeName employee ++ "/" ++
          fmtDate t ++ "/" ++ role ++ "/" ++ fmtTime t ++ "_" ++ suffix ++ ".jpg") ∧
      suffix.length = 8 ∧ (∀ c ∈ suffix.data, isHexChar c = true) ∧
      (fmtDate t).length = 10 ∧ (∀ c ∈ (fmtDate t).data, c.isDigit = true ∨ c = '-') ∧
      (fmtTime t).length = 6 ∧ (∀ c ∈ (fmtTime t).data, c.isDigit = true) ∧
      (upload_image bucketName img store employee role t uuidStr true mp).url =
        some ("https://storage.googleapis.com/" ++ bucketName ++ "/" ++
          objectPath store employee role t uuidStr) := by
  refine ⟨uuidShort uuidStr, rfl, ?_, ?_, fmtDate_length t, fmtDate_chars t,
    fmtTime_length t, fmtTime_chars t, rfl⟩
  · show (uuidStr.data.take 8).length = 8
    rw [List.length_take]
    omega
  · intro c hc
    exact huhex c hc

/-- Witness for `upload_path_format` with a concrete canonical uuid4 string (hyphens included). -/
theorem upload_path_format_witness :
    ∃ suffix : String,
      (upload_image "gramedia-display" ⟨ImgMode.RGB, 10, 10⟩ "Main Store" "Jane Doe"
          "education" ⟨2026, 10, 12, 13, 45, 7⟩ "a1b2c3d4-e5f6-4a7b-8c9d-0e1f23456789" true true).storedPath =
        some ("gramedia-display/" ++ sanitizeName "Main Store" ++ "/" ++
          sanitizeName "Jane Doe" ++ "/" ++ fmtDate ⟨2026, 10, 12, 13, 45, 7⟩ ++ "/" ++
          "education" ++ "/" ++ fmtTime ⟨2026, 10, 12, 13, 45, 7⟩ ++ "_" ++ suffix ++ ".jpg") ∧
      suffix.length = 8 ∧ (∀ c ∈ suffix.data, isHexChar c = true) ∧
      (fmtDate ⟨2026, 10, 12, 13, 45, 7⟩).length = 10 ∧
      (∀ c ∈ (fmtDate ⟨2026, 10, 12, 13, 45, 7⟩).data, c.isDigit = true ∨ c = '-') ∧
      (fmtTime ⟨2026, 10, 12, 13, 45, 7⟩).length = 6 ∧
      (∀ c ∈ (fmtTime ⟨2026, 10, 12, 13, 45, 7⟩).data, c.isDigit = true) ∧
      (upload_image "gramedia-display" ⟨ImgMode.RGB, 10, 10⟩ "Main Store" "Jane Doe"
          "education" ⟨2026, 10, 12, 13, 45, 7⟩ "a1b2c3d4-e5f6-4a7b-8c9d-0e1f23456789" true true).url =
        some ("https://storage.googleapis.com/" ++ "gramedia-display" ++ "/" ++
          objectPath "Main Store" "Jane Doe" "education" ⟨2026, 10, 12, 13, 45, 7⟩
            "a1b2c3d4-e5f6-4a7b-8c9d-0e1f23456789") :=
  upload_path_format "gramedia-display" ⟨ImgMode.RGB, 10, 10⟩ "Main Store" "Jane Doe"
    "education" ⟨2026, 10, 12, 13, 45, 7⟩ "a1b2c3d4-e5f6-4a7b-8c9d-0e1f23456789" true (by decide) (by decide)

/-- Claim C7: When the storage write succeeds but `make_public` fails, the
upload is still a structural success: the public URL is returned (never
`None`), and the failure is surfaced as the distinct "could not make public"
warning; a full failure, by contrast, returns `None` and no such warning. -/
theorem upload_public_failure_partial (bucketName : String) (img : Img)
    (store employee role : String) (t : DateTime) (uuidStr : String) :
    (upload_image bucketName img store employee role t uuidStr true false).url =
      some (publicUrl bucketName (objectPath store employee role t uuidStr)) ∧
    (upload_image bucketName img store employee role t uuidStr true false).warnedNotPublic
      = true ∧
    (upload_image bucketName img store employee role t uuidStr true false).url ≠ none ∧
    (∀ mp : Bool,
      (upload_image bucketName img store employee role t uuidStr false mp).url = none ∧
      (upload_image bucketName img store employee role t uuidStr false mp).warnedNotPublic
        = false) := by
  refine ⟨rfl, rfl, by simp [upload_image], fun mp => ⟨rfl, rfl⟩⟩

/-- Claim C10: A store name with no alphanumeric, space, hyphen or underscore
characters sanitizes to the empty string, and `upload_image` still builds
and uses an object path with an empty segment (consecutive slashes) instead
of rejecting the name. -/
theorem empty_sanitized_segment (store employee role : String) (t : DateTime)
    (uuidStr bucketName : String) (img : Img) (mp : Bool)
    (h : ∀ c ∈ store.data, keepChar c = false) :
    sanitizeName store = "" ∧
    (∃ rest, objectPath store employee role t uuidStr = "gramedia-display//" ++ rest) ∧
    (upload_image bucketName img store employee role t uuidStr true mp).url =
      some (publicUrl bucketName (objectPath store employee role t uuidStr)) := by
  have hempty : sanitizeName store = "" := by
    unfold sanitizeName sanitizeList
    have hf : store.data.filter keepChar = [] := by
      rw [List.filter_eq_nil_iff]
      intro a ha
      simp [h a ha]
    rw [hf]
    rfl
  refine ⟨hempty, ?_, rfl⟩
  refine ⟨sanitizeName employee ++ "/" ++ fmtDate t ++ "/" ++ role ++ "/" ++ fmtTime t ++
    "_" ++ uuidShort uuidStr ++ ".jpg", ?_⟩
  unfold objectPath
  rw [hempty]
  apply String.ext
  simp [String.data_append, List.cons_append, List.nil_append, List.append_assoc]

theorem addName_noop (catalog : List String) (name : String)
    (h : ∃ r ∈ catalog, pyStripS r = pyStripS name) :
    addName catalog name = (catalog, true) := by
  unfold addName
  rw [if_pos]
  rw [List.any_eq_true]
  obtain ⟨r, hr, he⟩ := h
  exact ⟨r, hr, beq_iff_eq.mpr he⟩

theorem addName_twice_once (catalog : List String) (name : String)
    (h : catalog.countP (fun r => pyStripS r == pyStripS name) = 0) :
    ((addName (addName catalog name).1 name).1.countP
        (fun r => pyStripS r == pyStripS name) = 1) ∧
    (addName catalog name).2 = true ∧ (addName (addName catalog name).1 name).2 = true := by
  have hforall : ∀ r ∈ catalog, ¬ (pyStripS r == pyStripS name) = true :=
    List.countP_eq_zero.mp h
  have hany : catalog.any (fun r => pyStripS r == pyStripS name) = false := by
    rw [Bool.eq_false_iff]
    intro hc
    obtain ⟨r, hr, he⟩ := List.any_eq_true.mp hc
    exact hforall r hr he
  have h1 : addName catalog name = (catalog ++ [pyStripS name], true) := by
    unfold addName
    rw [if_neg]
    simp [hany]
  have h2 : addName (catalog ++ [pyStripS name]) name
      = (catalog ++ [pyStripS name], true) := by
    apply addName_noop
    exact ⟨pyStripS name, by simp, pyStripS_idem name⟩
  rw [h1, h2]
  refine ⟨?_, rfl, rfl⟩
  rw [List.countP_append, h]
  simp [List.countP_cons, pyStripS_idem name]

/-- Claim C6: Catalog `add` is idempotent under trimmed-name equality: when a
record whose trimmed value equals the trimmed name is already present, the
add is a no-op that still reports success; and starting from a catalog with
no trimmed-equal entry, adding the same name twice sequentially yields a
catalog containing exactly one trimmed-equal entry.  This holds for both the
store catalog and the employee catalog. -/
theorem catalog_add_idempotent (catalog : List String) (name : String) :
    ((∃ r ∈ catalog, pyStripS r = pyStripS name) →
      add_store_to_sheet catalog name = (catalog, true) ∧
      add_employee_to_sheet catalog name = (catalog, true)) ∧
    (catalog.countP (fun r => pyStripS r == pyStripS name) = 0 →
      ((add_store_to_sheet (add_store_to_sheet catalog name).1 name).1.countP
          (fun r => pyStripS r == pyStripS name) = 1 ∧
        (add_store_to_sheet catalog name).2 = true ∧
        (add_store_to_sheet (add_store_to_sheet catalog name).1 name).2 = true) ∧
      ((add_employee_to_sheet (add_employee_to_sheet catalog name).1 name).1.countP
          (fun r => pyStripS r == pyStripS name) = 1 ∧
        (add_employee_to_sheet catalog name).2 = true ∧
        (add_employee_to_sheet (add_employee_to_sheet catalog name).1 name).2 = true)) := by
  constructor
  · intro h
    exact ⟨addName_noop catalog name h, addName_noop catalog name h⟩
  · intro h
    exact ⟨addName_twice_once catalog name h, addName_twice_once catalog name h⟩

/-- Witness for `catalog_add_idempotent`: adding `" Store A "` twice to a
catalog holding only `"Other"` leaves exactly one trimmed-equal entry, and
adding it to a catalog already holding `"Store A"` is a no-op. -/
theorem catalog_add_idempotent_witness :
    (add_store_to_sheet ["Store A"] " Store A " = (["Store A"], true) ∧
      add_employee_to_sheet ["Store A"] " Store A " = (["Store A"], true)) ∧
    (add_store_to_sheet (add_store_to_sheet ["Other"] " Store A ").1 " Store A ").1.countP
        (fun r => pyStripS r == pyStripS " Store A ") = 1 := by
  constructor
  · exact (catalog_add_idempotent ["Store A"] " Store A ").1
      ⟨"Store A", by simp, by decide⟩
  · exact ((catalog_add_idempotent ["Other"] " Store A ").2 (by decide)).1.1

theorem validate_nil_facts (f : FormState) (hv : validate f = []) :
    pyStripS f.store_name ≠ "" ∧ pyStripS f.employee_name ≠ "" ∧
    f.education_photo = true ∧ f.poster_photo = true ∧
    f.participation ≠ "Select..." ∧
    (f.participation = "Yes" → f.display_competition_photo = true) ∧
    (f.participation = "No" → pyStripS f.non_participation_reason ≠ "") := by
  unfold validate at hv
  simp only [List.append_eq_nil] at hv
  obtain ⟨⟨⟨⟨⟨⟨h1, h2⟩, h3⟩, h4⟩, h5⟩, h6⟩, h7⟩ := hv
  refine ⟨?_, ?_, ?_, ?_, ?_, ?_, ?_⟩
  · intro hc; rw [if_pos hc] at h1; exact List.cons_ne_nil _ _ h1
  · intro hc; rw [if_pos hc] at h2; exact List.cons_ne_nil _ _ h2
  · by_cases hc : f.education_photo = false
    · rw [if_pos hc] at h3; exact absurd h3 (List.cons_ne_nil _ _)
    · exact eq_true_of_ne_false hc
  · by_cases hc : f.poster_photo = false
    · rw [if_pos hc] at h4; exact absurd h4 (List.cons_ne_nil _ _)
    · exact eq_true_of_ne_false hc
  · intro hc; rw [if_pos hc] at h5; exact List.cons_ne_nil _ _ h5
  · intro hy
    by_cases hd : f.display_competition_photo = false
    · rw [if_pos ⟨hy, hd⟩] at h6; exact absurd h6 (List.cons_ne_nil _ _)
    · exact eq_true_of_ne_false hd
  · intro hn hc
    rw [if_pos ⟨hn, hc⟩] at h7
    exact List.cons_ne_nil _ _ h7

theorem pyStripS_ne_empty (s : String) (h : pyStripS s ≠ "") : s ≠ "" := by
  intro hc
  rw [hc] at h
  exact h rfl

/-- Claim C5: Validation collects all applicable error messages at once (each
failing check contributes its message, independent of the others), and
whenever at least one validation error exists, no photo uploads are
performed and nothing is written to the sink. -/
theorem validation_collects_all (f : FormState) (env : Env) :
    (pyStripS f.store_name = "" → "Store name is required" ∈ validate f) ∧
    (pyStripS f.employee_name = "" → "Employee name is required" ∈ validate f) ∧
    (f.education_photo = false → "Education photo is required" ∈ validate f) ∧
    (f.poster_photo = false → "Poster photo is required" ∈ validate f) ∧
    (f.participation = "Select..." → "Please select participation status" ∈ validate f) ∧
    (f.participation = "Yes" ∧ f.display_competition_photo = false →
      "Display competition photo is required when participating" ∈ validate f) ∧
    (f.participation = "No" ∧ pyStripS f.non_participation_reason = "" →
      "Reason is required when not participating" ∈ validate f) ∧
    (validate f ≠ [] →
      (processSubmission f env).uploaded = [] ∧ (processSubmission f env).row = none) := by
  refine ⟨?_, ?_, ?_, ?_, ?_, ?_, ?_, ?_⟩
  · intro h
    unfold validate
    simp only [List.mem_append]
    left; left; left; left; left; left
    rw [if_pos h]
    exact List.mem_singleton_self _
  · intro h
    unfold validate
    simp only [List.mem_append]
    left; left; left; left; left; right
    rw [if_pos h]
    exact List.mem_singleton_self _
  · intro h
    unfold validate
    simp only [List.mem_append]
    left; left; left; left; right
    rw [if_pos h]
    exact List.mem_singleton_self _
  · intro h
    unfold validate
    simp only [List.mem_append]
    left; left; left; right
    rw [if_pos h]
    exact List.mem_singleton_self _
  · intro h
    unfold validate
    simp only [List.mem_append]
    left; left; right
    rw [if_pos h]
    exact List.mem_singleton_self _
  · intro h
    unfold validate
    simp only [List.mem_append]
    left; right
    rw [if_pos h]
    exact List.mem_singleton_self _
  · intro h
    unfold validate
    simp only [List.mem_append]
    right
    rw [if_pos h]
    exact List.mem_singleton_self _
  · intro h
    simp only [processSubmission]
    rw [if_neg h]
    exact ⟨rfl, rfl⟩

/-- Witness for `validation_collects_all`: a blank form yields both the
store-name and poster messages simultaneously, and nothing is uploaded or
appended. -/
theorem validation_collects_all_witness :
    ("Store name is required" ∈
      validate ⟨"", "", false, false, false, false, "Select...", false, ""⟩) ∧
    ("Poster photo is required" ∈
      validate ⟨"", "", false, false, false, false, "Select...", false, ""⟩) ∧
    (processSubmission ⟨"", "", false, false, false, false, "Select...", false, ""⟩
      ⟨true, true, fun _ => none, true, "2026-01-01", "2026-01-01 00:00:00"⟩).uploaded = [] ∧
    (processSubmission ⟨"", "", false, false, false, false, "Select...", false, ""⟩
      ⟨true, true, fun _ => none, true, "2026-01-01", "2026-01-01 00:00:00"⟩).row = none := by
  have h := validation_collects_all
    ⟨"", "", false, false, false, false, "Select...", false, ""⟩
    ⟨true, true, fun _ => none, true, "2026-01-01", "2026-01-01 00:00:00"⟩
  have h8 := h.2.2.2.2.2.2.2 (by decide)
  exact ⟨h.1 (by decide), h.2.2.2.1 (by decide), h8.1, h8.2⟩

/-- Claim C2: If the education or the poster upload fails, no row is appended,
while every photo whose upload did succeed (education, poster, or the
display photo when participating) stays in the bucket as an orphan. -/
theorem upload_failure_no_row (f : FormState) (env : Env)
    (hv : validate f = [])
    (hs : f.new_store = true → env.add_store_ok = true)
    (he : f.new_employee = true → env.add_employee_ok = true)
    (hfail : env.upload "education" = none ∨ env.upload "poster" = none) :
    (processSubmission f env).row = none ∧
    ((env.upload "education").isSome = true →
      "education" ∈ (processSubmission f env).uploaded) ∧
    ((env.upload "poster").isSome = true →
      "poster" ∈ (processSubmission f env).uploaded) ∧
    ((f.participation = "Yes" ∧ f.display_competition_photo = true) →
      (env.upload "display_competition").isSome = true →
      "display_competition" ∈ (processSubmission f env).uploaded) := by
  have h1 : ¬(f.new_store = true ∧ env.add_store_ok = false) := by
    rintro ⟨ha, hb⟩; rw [hs ha] at hb; exact Bool.noConfusion hb
  have h2 : ¬(f.new_employee = true ∧ env.add_employee_ok = false) := by
    rintro ⟨ha, hb⟩; rw [he ha] at hb; exact Bool.noConfusion hb
  have h3 : ¬(pyTruthy (env.upload "education") = true ∧
      pyTruthy (env.upload "poster") = true) := by
    rintro ⟨ha, hb⟩
    rcases hfail with hf | hf
    · rw [hf] at ha; exact Bool.noConfusion ha
    · rw [hf] at hb; exact Bool.noConfusion hb
  simp only [processSubmission]
  rw [if_pos hv, if_neg h1, if_neg h2, if_neg h3]
  refine ⟨rfl, ?_, ?_, ?_⟩
  · intro hi
    refine List.mem_append_left _ (List.mem_append_left _ ?_)
    rw [if_pos hi]
    exact List.mem_singleton_self _
  · intro hi
    refine List.mem_append_left _ (List.mem_append_right _ ?_)
    rw [if_pos hi]
    exact List.mem_singleton_self _
  · intro hd hi
    refine List.mem_append_right _ ?_
    rw [if_pos ⟨hd, hi⟩]
    exact List.mem_singleton_self _

/-- Witness for `upload_failure_no_row`: education succeeds, poster fails;
no row is appended and the education object stays in the bucket. -/
theorem upload_failure_no_row_witness :
    (processSubmission ⟨"Main Store", "Jane Doe", false, false, true, true, "No", false, "Out of stock"⟩
      ⟨true, true, fun t => if t == "education" then some "https://e" else none, true,
        "2026-01-01", "2026-01-01 00:00:00"⟩).row = none ∧
    "education" ∈ (processSubmission
      ⟨"Main Store", "Jane Doe", false, false, true, true, "No", false, "Out of stock"⟩
      ⟨true, true, fun t => if t == "education" then some "https://e" else none, true,
        "2026-01-01", "2026-01-01 00:00:00"⟩).uploaded := by
  have h := upload_failure_no_row
    ⟨"Main Store", "Jane Doe", false, false, true, true, "No", false, "Out of stock"⟩
    ⟨true, true, fun t => if t == "education" then some "https://e" else none, true,
      "2026-01-01", "2026-01-01 00:00:00"⟩
    (by decide)
    (fun hc => Bool.noConfusion hc)
    (fun hc => Bool.noConfusion hc)
    (Or.inr (by decide))
  exact ⟨h.1, h.2.1 (by decide)⟩

/-- Claim C1, counterexample: A form that passes validation (participation
`"Yes"`, all photos present) whose display-competition upload fails while
education and poster succeed still gets a row appended — with the
`Display_Competition_Photo_URL` cell and the `Non_Participation_Reason`
cell both empty, violating the exactly-one invariant (line 757 only checks
`education_url and poster_url`, never `display_url`). -/
theorem row_invariant_counterexample :
    ((processSubmission
        ⟨"Main Store", "Jane Doe", false, false, true, true, "Yes", true, ""⟩
        ⟨true, true, fun t => if t == "display_competition" then none else some "https://u",
          true, "2026-01-01", "2026-01-01 00:00:00"⟩).row.map
      Row.participation_competition) = some "Yes" ∧
    ((processSubmission
        ⟨"Main Store", "Jane Doe", false, false, true, true, "Yes", true, ""⟩
        ⟨true, true, fun t => if t == "display_competition" then none else some "https://u",
          true, "2026-01-01", "2026-01-01 00:00:00"⟩).row.map
      Row.display_competition_photo_url) = some "" ∧
    ((processSubmission
        ⟨"Main Store", "Jane Doe", false, false, true, true, "Yes", true, ""⟩
        ⟨true, true, fun t => if t == "display_competition" then none else some "https://u",
          true, "2026-01-01", "2026-01-01 00:00:00"⟩).row.map
      Row.non_participation_reason) = some "" := by
  refine ⟨by decide, by decide, by decide⟩

/-- Claim C1, amended: Whenever a row is appended, provided additionally
that the display-competition upload succeeds when participating (the code
does not check this, see `row_invariant_counterexample`), exactly one of
{`Display_Competition_Photo_URL` non-empty, `Non_Participation_Reason`
non-empty} holds in the appended record, determined by `participation`:
`"Yes"` gives a non-empty display URL and empty reason, `"No"` an empty
display URL and non-empty reason. -/
theorem row_invariant (f : FormState) (env : Env)
    (hpart : f.participation = "Select..." ∨ f.participation = "Yes" ∨
      f.participation = "No")
    (hup : ∀ t u, env.upload t = some u → u ≠ "")
    (hdisp : f.participation = "Yes" → env.upload "display_competition" ≠ none)
    (r : Row) (hr : (processSubmission f env).row = some r) :
    (f.participation = "Yes" →
      r.display_competition_photo_url ≠ "" ∧ r.non_participation_reason = "") ∧
    (f.participation = "No" →
      r.display_competition_photo_url = "" ∧ r.non_participation_reason ≠ "") ∧
    ((r.display_competition_photo_url ≠ "" ∧ r.non_participation_reason = "") ∨
      (r.display_competition_photo_url = "" ∧ r.non_participation_reason ≠ "")) := by
  have hv : validate f = [] := by
    by_contra hv
    simp only [processSubmission] at hr
    rw [if_neg hv] at hr
    simp at hr
  have facts := validate_nil_facts f hv
  simp only [processSubmission] at hr
  rw [if_pos hv] at hr
  by_cases h1 : f.new_store = true ∧ env.add_store_ok = false
  · rw [if_pos h1] at hr; simp at hr
  · rw [if_neg h1] at hr
    by_cases h2 : f.new_employee = true ∧ env.add_employee_ok = false
    · rw [if_pos h2] at hr; simp at hr
    · rw [if_neg h2] at hr
      by_cases h3 : pyTruthy (env.upload "education") = true ∧
          pyTruthy (env.upload "poster") = true
      · rw [if_pos h3] at hr
        by_cases h4 : env.append_ok = true
        · rw [if_pos h4] at hr
          have hreq := Option.some.inj hr
          have hYes : f.participation = "Yes" →
              r.display_competition_photo_url ≠ "" ∧
              r.non_participation_reason = "" := by
            intro hy
            obtain ⟨u, hu⟩ := Option.ne_none_iff_exists'.mp (hdisp hy)
            rw [← hreq]
            constructor
            · show (if f.participation = "Yes" then
                optCell (if f.participation = "Yes" ∧
                    f.display_competition_photo = true then
                  env.upload "display_competition" else some "") else "") ≠ ""
              rw [if_pos hy, if_pos ⟨hy, facts.2.2.2.2.2.1 hy⟩, hu]
              exact hup _ u hu
            · show (if f.participation = "No" then
                f.non_participation_reason else "") = ""
              rw [if_neg (by rw [hy]; decide)]
          have hNo : f.participation = "No" →
              r.display_competition_photo_url = "" ∧
              r.non_participation_reason ≠ "" := by
            intro hn
            rw [← hreq]
            constructor
            · show (if f.participation = "Yes" then
                optCell (if f.participation = "Yes" ∧
                    f.display_competition_photo = true then
                  env.upload "display_competition" else some "") else "") = ""
              rw [if_neg (by rw [hn]; decide)]
            · show (if f.participation = "No" then
                f.non_participation_reason else "") ≠ ""
              rw [if_pos hn]
              exact pyStripS_ne_empty _ (facts.2.2.2.2.2.2 hn)
          refine ⟨hYes, hNo, ?_⟩
          rcases hpart with hp | hp | hp
          · exact absurd hp facts.2.2.2.2.1
          · exact Or.inl (hYes hp)
          · exact Or.inr (hNo hp)
        · rw [if_neg h4] at hr; simp at hr
      · rw [if_neg h3] at hr; simp at hr

/-- Witness for `row_invariant`: a non-participating submission appends a
row with an empty display URL and the non-empty reason. -/
theorem row_invariant_witness :
    ("No" = "Select..." ∨ ("No" : String) = "Yes" ∨ ("No" : String) = "No") ∧
    ((("No" : String) = "Yes" → ("" : String) ≠ "" ∧ ("Out of stock" : String) = "") ∧
     (("No" : String) = "No" → ("" : String) = "" ∧ ("Out of stock" : String) ≠ "") ∧
     ((("" : String) ≠ "" ∧ ("Out of stock" : String) = "") ∨
      (("" : String) = "" ∧ ("Out of stock" : String) ≠ ""))) := by
  refine ⟨Or.inr (Or.inr rfl), ?_⟩
  have h := row_invariant
    ⟨"Main Store", "Jane Doe", false, false, true, true, "No", false, "Out of stock"⟩
    ⟨true, true, fun _ => some "https://u", true, "2026-01-01", "2026-01-01 00:00:00"⟩
    (Or.inr (Or.inr rfl))
    (fun t u hu => by
      rw [← Option.some.inj hu]
      decide)
    (fun _ => by decide)
    ⟨"Main Store", "Jane Doe", "2026-01-01", "https://u", "https://u", "No", "",
      "Out of stock", "2026-01-01 00:00:00", "Submitted"⟩
    (by decide)
  exact h

/-- Witness for `empty_sanitized_segment` with the store name `"@@@"`. -/
theorem empty_sanitized_segment_witness :
    sanitizeName "@@@" = "" ∧
    (∃ rest, objectPath "@@@" "Jane" "poster" ⟨2026, 1, 2, 3, 4, 5⟩ "abc" =
      "gramedia-display//" ++ rest) ∧
    (upload_image "bkt" ⟨ImgMode.RGB, 4, 4⟩ "@@@" "Jane" "poster" ⟨2026, 1, 2, 3, 4, 5⟩
        "abc" true true).url =
      some (publicUrl "bkt" (objectPath "@@@" "Jane" "poster" ⟨2026, 1, 2, 3, 4, 5⟩ "abc")) :=
  empty_sanitized_segment "@@@" "Jane" "poster" ⟨2026, 1, 2, 3, 4, 5⟩ "abc" "bkt"
    ⟨ImgMode.RGB, 4, 4⟩ true (by decide)

end Gramedia
